import Mathlib

/-!
Verification of the dev-bridge HTTP client (`src/lib/dev-bridge/http-client.ts`)
of the proxycast front-end: a shallow embedding of its functions
(`isDevBridgeAvailable`, `invokeViaHttp`, `healthCheck`, `getBridgeStatus`)
and proofs about the transport-bridge behaviour described in the design
document (mode detection, invoke outcome mapping, liveness probe).

Promises are embedded as values: an `async` function that can reject is
modelled as a total function returning `Except String α`, where
`Except.error m` stands for a rejected promise (a thrown exception whose
message is `m`) and `Except.ok v` for a resolved one.  The single `fetch`
call inside a function is modelled by passing in its outcome
(`FetchResult`) and, where a claim is about the request that is sent,
by also returning the list of HTTP requests issued.
-/

namespace DevBridge

/-- Structured JSON-like values: the opaque payloads carried in the
`args` and `result` fields of bridge requests and responses. -/
inductive Json where
  | null : Json
  | bool (b : Bool) : Json
  | num (n : Int) : Json
  | str (s : String) : Json
  | arr (items : List Json) : Json
  | obj (fields : List (String × Json)) : Json

/-- The parsed response body of the bridge endpoint
(interface `InvokeResponse` in the source): an optional `result`
value and an optional `error` string, both may be absent. -/
structure InvokeResponse where
  result : Option Json
  error : Option String

/-- An HTTP response as seen through the `fetch` API: a numeric status,
a status text (reason phrase), and the outcome of `response.json()` —
which either yields a parsed `InvokeResponse` or throws a parse error. -/
structure HttpResponse where
  status : Nat
  statusText : String
  jsonBody : Except String InvokeResponse

/-- The `ok` accessor of a fetch `Response`: true exactly when the
status is in the 2xx range (200–299). -/
def HttpResponse.ok (r : HttpResponse) : Bool :=
  200 ≤ r.status && r.status ≤ 299

/-- The outcome of one `fetch` call: either an HTTP response was
received, or the call threw (connection refused, timeout, ...). -/
inductive FetchResult where
  | response (r : HttpResponse) : FetchResult
  | exception (msg : String) : FetchResult

/-- The fixed bridge endpoint (constant `BRIDGE_URL` in the source). -/
def BRIDGE_URL : String := "http://127.0.0.1:3030/invoke"

/-- An HTTP request as issued through `fetch`: URL, method, header list
and a JSON body (the body is modelled as the structured value that is
stringified, since `JSON.stringify` is injective on this model). -/
structure HttpRequest where
  url : String
  method : String
  headers : List (String × String)
  body : Json

/-- The JSON body `JSON.stringify` produces for the object literal with
fields `cmd` and `args`: when `args` is `undefined` (absent), the key
is omitted from the serialization, as `JSON.stringify` does. -/
def requestBody (cmd : String) (args : Option Json) : Json :=
  Json.obj (("cmd", Json.str cmd) ::
    (match args with
     | none => []
     | some a => [("args", a)]))

/-- The one request `invokeViaHttp cmd args` sends: a POST to
`BRIDGE_URL` with a `Content-Type: application/json` header and the
stringified request body. -/
def bridgeRequest (cmd : String) (args : Option Json) : HttpRequest :=
  { url := BRIDGE_URL
    method := "POST"
    headers := [("Content-Type", "application/json")]
    body := requestBody cmd args }

/-- Embedding of `invokeViaHttp`'s handling of its single fetch:
if the fetch threw, the exception is caught, logged and rethrown;
on a non-2xx status it throws an Error with message
`HTTP <status>: <statusText>`; a body-parse failure is rethrown; a
truthy (non-empty) `error` field of the parsed body is thrown as an
Error with that message; otherwise the body's `result` field is
returned.  `Except.error` models the rejected promise. -/
def invokeViaHttp (fr : FetchResult) : Except String (Option Json) :=
  match fr with
  | .exception m => .error m
  | .response r =>
    if !r.ok then
      .error ("HTTP " ++ toString r.status ++ ": " ++ r.statusText)
    else
      match r.jsonBody with
      | .error m => .error m
      | .ok data =>
        match data.error with
        | some s => if s != "" then .error s else .ok data.result
        | none => .ok data.result

/-- The full behaviour of `invokeViaHttp cmd args`: the list of HTTP
requests it issues (the source performs exactly one unconditional
`fetch` of `bridgeRequest cmd args`) paired with the promise outcome
computed from that fetch's result. -/
def invokeViaHttpRun (cmd : String) (args : Option Json)
    (fr : FetchResult) : List HttpRequest × Except String (Option Json) :=
  ([bridgeRequest cmd args], invokeViaHttp fr)

/-- Embedding of `healthCheck`: it POSTs a `get_server_status` request
and returns `response.ok`; any exception from the fetch is caught by
the surrounding try/catch and mapped to `false`.  The function is
total (returns `Bool`, not `Except`): no exception escapes it. -/
def healthCheck (fr : FetchResult) : Bool :=
  match fr with
  | .response r => r.ok
  | .exception _ => false

/-- The environment state the client inspects: whether `window` is
defined, the truthiness of `window.__TAURI__`, the `import.meta.env.DEV`
build flag, and `location.hostname`. -/
structure Env where
  windowDefined : Bool
  tauriMarker : Bool
  devFlag : Bool
  hostname : String

/-- The privileged-channel (Tauri) marker is present: `window` is
defined and `window.__TAURI__` is truthy (`hasTauri` in the source). -/
def markerPresent (e : Env) : Bool :=
  e.windowDefined && e.tauriMarker

/-- Embedding of `isDevBridgeAvailable`: browser environment (window
defined, no Tauri marker) and in development mode (`DEV` build flag,
or hostname `localhost` or `127.0.0.1`). -/
def isDevBridgeAvailable (e : Env) : Bool :=
  e.windowDefined && !e.tauriMarker &&
    (e.devFlag || e.hostname == "localhost" || e.hostname == "127.0.0.1")

/-- The `mode` field of `BridgeStatus` in the source. -/
inductive BridgeMode where
  | tauri : BridgeMode
  | http : BridgeMode
  | mock : BridgeMode
deriving DecidableEq

/-- The record returned by `getBridgeStatus`. -/
structure BridgeStatus where
  available : Bool
  connected : Bool
  mode : BridgeMode

/-- Embedding of `getBridgeStatus`: `hasTauri` is the marker check,
`devAvailable` is `isDevBridgeAvailable`; `available` is their
disjunction, `connected` is `hasTauri`, and `mode` is `tauri` when
`hasTauri`, else `http` when `devAvailable`, else `mock`. -/
def getBridgeStatus (e : Env) : BridgeStatus :=
  let hasTauri := markerPresent e
  let devAvailable := isDevBridgeAvailable e
  { available := hasTauri || devAvailable
    connected := hasTauri
    mode := if hasTauri then .tauri else if devAvailable then .http else .mock }

/-- The design document's transport mode enumeration. -/
inductive TransportMode where
  | native : TransportMode
  | network : TransportMode
  | unavailable : TransportMode
deriving DecidableEq

/-- The transport mode the code's `getBridgeStatus` mode field denotes,
under the spec naming: `tauri` is `Native`, `http` is `Network`,
`mock` is `Unavailable`. -/
def transportMode (e : Env) : TransportMode :=
  match (getBridgeStatus e).mode with
  | .tauri => .native
  | .http => .network
  | .mock => .unavailable

/-- The mode decision exactly as the claim words it: marker present
gives `Native` regardless of hostname; otherwise hostname `localhost`
or `127.0.0.1` gives `Network`; otherwise `Unavailable`.  Stated from
the claim, to be compared with `transportMode` (from the source). -/
def claimedMode (e : Env) : TransportMode :=
  if markerPresent e then .native
  else if e.hostname == "localhost" || e.hostname == "127.0.0.1" then .network
  else .unavailable

/-- The amended mode decision: marker present gives `Native`;
otherwise `Network` exactly when `window` is defined, the marker is
absent, and either the `DEV` build flag is set or the hostname is
`localhost` or `127.0.0.1`; otherwise `Unavailable`. -/
def amendedMode (e : Env) : TransportMode :=
  if markerPresent e then .native
  else if e.windowDefined && !e.tauriMarker &&
      (e.devFlag || e.hostname == "localhost" || e.hostname == "127.0.0.1") then .network
  else .unavailable

/-- The design document's invoke outcome sum type: exactly one of a
success value or a failure message. -/
inductive InvokeOutcome where
  | success (v : Option Json) : InvokeOutcome
  | failure (msg : String) : InvokeOutcome

/-- Turns the embedded promise outcome into the spec's outcome type:
a resolution is `success`, a rejection is `failure` with the
exception's message. -/
def outcomeOfExcept : Except String (Option Json) → InvokeOutcome
  | .ok v => .success v
  | .error m => .failure m

/-- Modelled from the spec: the Transport Bridge `invoke` dispatcher is
not among the provided sources (only its Network-mode transport
`invokeViaHttp` is), so its mode dispatch is taken from the design
document.  Under `Native` it delegates to the opaque privileged
channel; under `Network` it issues the single bridge POST and maps the
transport outcome; under `Unavailable` it immediately returns
`Failure "no transport available"` without attempting network I/O.
The first component lists the HTTP requests issued. -/
def bridgeInvoke (e : Env) (native : String → Option Json → InvokeOutcome)
    (fr : FetchResult) (cmd : String) (args : Option Json) :
    List HttpRequest × InvokeOutcome :=
  match transportMode e with
  | .native => ([], native cmd args)
  | .network => ([bridgeRequest cmd args], outcomeOfExcept (invokeViaHttp fr))
  | .unavailable => ([], .failure "no transport available")

/-- Characterization of the fetch results on which `invokeViaHttp`
fails, stated independently of `invokeViaHttp` itself: the fetch threw,
or the status is not 2xx, or the body failed to parse, or the parsed
body carries a non-empty `error` field. -/
def isFailureCase (fr : FetchResult) : Bool :=
  match fr with
  | .exception _ => true
  | .response r =>
    !r.ok ||
      (match r.jsonBody with
       | .error _ => true
       | .ok data =>
         match data.error with
         | some s => s != ""
         | none => false)

/-- A 500 response with a well-formed empty body. -/
def r500 : HttpResponse :=
  { status := 500, statusText := "Internal Server Error"
    jsonBody := .ok { result := none, error := none } }

/-- A 404 response with a well-formed empty body. -/
def r404 : HttpResponse :=
  { status := 404, statusText := "Not Found"
    jsonBody := .ok { result := none, error := none } }

/-- A 200 response whose body carries the application-level error
string `boom` and no result. -/
def rOkErr : HttpResponse :=
  { status := 200, statusText := "OK"
    jsonBody := .ok { result := none, error := some "boom" } }

/-- A 200 response whose body has neither a `result` nor an `error`
field. -/
def rOkEmpty : HttpResponse :=
  { status := 200, statusText := "OK"
    jsonBody := .ok { result := none, error := none } }

/-- A browser environment in a dev build served from a non-local host:
window defined, no Tauri marker, `DEV` flag set, hostname
`example.com`. -/
def envDevRemote : Env :=
  { windowDefined := true, tauriMarker := false
    devFlag := true, hostname := "example.com" }

/-- An environment with no `window` at all: no transport is available. -/
def envNone : Env :=
  { windowDefined := false, tauriMarker := false
    devFlag := false, hostname := "" }

/-- A native (Tauri) environment: window defined and marker present. -/
def envTauri : Env :=
  { windowDefined := true, tauriMarker := true
    devFlag := false, hostname := "example.com" }

/-- Resolution test for an embedded promise outcome: true exactly when
the promise resolved (the call did not throw). -/
def resolves : Except String (Option Json) → Bool
  | .ok _ => true
  | .error _ => false

/-- Claim C1 counterexample: the claim says `invoke` never throws to
its caller and that a non-2xx HTTP status is returned as a
`Failure(message)` value.  On the concrete 500 response `r500` the
source's `invokeViaHttp` instead throws (the promise rejects) with the
Error message built from the status line. -/
theorem invokeViaHttp_throws_counterexample :
    invokeViaHttp (FetchResult.response r500) =
      Except.error "HTTP 500: Internal Server Error" := by
  rfl

/-- Claim C1 (amended): `invokeViaHttp` propagates every failure as a
thrown exception (rejected promise) rather than a returned Failure
value: it resolves exactly when the fetch returned a 2xx response
whose body parsed and carries no non-empty `error` field, and rejects
in every other case. -/
theorem invokeViaHttp_rejects_iff_failure (fr : FetchResult) :
    resolves (invokeViaHttp fr) = !isFailureCase fr := by
  cases fr with
  | exception m => rfl
  | response r =>
    cases h1 : r.ok with
    | false => simp [invokeViaHttp, isFailureCase, h1, resolves]
    | true =>
      cases h2 : r.jsonBody with
      | error m => simp [invokeViaHttp, isFailureCase, h1, h2, resolves]
      | ok data =>
        cases h3 : data.error with
        | none => simp [invokeViaHttp, isFailureCase, h1, h2, h3, resolves]
        | some s =>
          cases h4 : (s != "") <;>
            simp [invokeViaHttp, isFailureCase, h1, h2, h3, h4, resolves]

/-- Claim C2 counterexample: the claim says every HTTP response,
regardless of its status code, makes the probe report reachable
(`true`).  On the concrete 500 response `r500` the source's
`healthCheck` returns `response.ok`, which is `false`. -/
theorem healthCheck_nonok_counterexample :
    healthCheck (FetchResult.response r500) = false := by
  rfl

/-- Claim C2 (amended): the liveness probe reports the backend as
reachable exactly when an HTTP response with a 2xx status was
received; a non-2xx response and the absence of any response both
yield `false`, and the response body is never inspected. -/
theorem healthCheck_reachable_iff (fr : FetchResult) :
    healthCheck fr = true ↔
      ∃ r, fr = FetchResult.response r ∧ 200 ≤ r.status ∧ r.status ≤ 299 := by
  cases fr with
  | response r =>
    simp [healthCheck, HttpResponse.ok, Bool.and_eq_true, decide_eq_true_eq]
  | exception m => simp [healthCheck]

/-- Claim C3 counterexample: the claim says that without the marker the
mode is `Network` only for hostnames `localhost` and `127.0.0.1`.  In
the environment `envDevRemote` (window defined, no marker, `DEV` build
flag set, hostname `example.com`) the source reports `http` mode
(`Network`) while the claimed decision gives `Unavailable`. -/
theorem modeDecision_counterexample :
    transportMode envDevRemote = TransportMode.network ∧
      claimedMode envDevRemote = TransportMode.unavailable := by
  constructor <;> rfl

/-- Claim C3 (amended): if the privileged-channel marker is present the
mode is `Native` regardless of hostname; otherwise the mode is
`Network` exactly when `window` is defined, the marker is absent, and
either the `DEV` build flag is set or the hostname is `localhost` or
`127.0.0.1`; otherwise the mode is `Unavailable`. -/
theorem transportMode_eq_amended (e : Env) :
    transportMode e = amendedMode e := by
  cases hw : e.windowDefined <;>
  cases ht : e.tauriMarker <;>
  cases hd : (e.devFlag || e.hostname == "localhost" ||
      e.hostname == "127.0.0.1") <;>
  simp [transportMode, amendedMode, getBridgeStatus, markerPresent,
    isDevBridgeAvailable, hw, ht, hd]

/-- Claim C4: on a 2xx response whose parsed body carries a non-empty
`error` field, `invokeViaHttp` fails with exactly that error string
even though the transport succeeded; on a 2xx response whose `error`
field is absent or empty, it succeeds with the body's `result`
field. -/
theorem invoke_body_error_mapping (r : HttpResponse) (data : InvokeResponse)
    (hok : r.ok = true) (hb : r.jsonBody = Except.ok data) :
    (∀ s, data.error = some s → s ≠ "" →
        invokeViaHttp (FetchResult.response r) = Except.error s) ∧
    ((data.error = none ∨ data.error = some "") →
        invokeViaHttp (FetchResult.response r) = Except.ok data.result) := by
  constructor
  · intro s hs hne
    have hbne : (s != "") = true := bne_iff_ne.mpr hne
    simp [invokeViaHttp, hok, hb, hs, hbne]
  · intro h
    rcases h with h | h <;> simp [invokeViaHttp, hok, hb, h]

/-- Claim C4 witness: the concrete 200 response `rOkErr` carrying the
application-level error string `boom` makes `invokeViaHttp` fail with
exactly `boom`. -/
theorem invoke_body_error_mapping_witness :
    invokeViaHttp (FetchResult.response rOkErr) = Except.error "boom" :=
  (invoke_body_error_mapping rOkErr { result := none, error := some "boom" }
    (by decide) (by rfl)).1 "boom" (by rfl) (by decide)

/-- Claim C5: on any HTTP response with a non-2xx status,
`invokeViaHttp` fails with the message built exactly as
`HTTP <status>: <reason phrase>` from the response's status code and
status text. -/
theorem invoke_http_status_failure (r : HttpResponse) (h : r.ok = false) :
    invokeViaHttp (FetchResult.response r) =
      Except.error ("HTTP " ++ toString r.status ++ ": " ++ r.statusText) := by
  simp [invokeViaHttp, h]

/-- Claim C5 witness: the concrete 404 response `r404` makes
`invokeViaHttp` fail with exactly the message `HTTP 404: Not Found`. -/
theorem invoke_http_status_failure_witness :
    invokeViaHttp (FetchResult.response r404) =
      Except.error "HTTP 404: Not Found" := by
  exact invoke_http_status_failure r404 (by decide)

/-- Claim C6: every transport exception raised during the liveness
probe is caught and mapped to `false`; `healthCheck` is a total
function into `Bool`, so no exception propagates to its caller. -/
theorem healthCheck_exception_false (m : String) :
    healthCheck (FetchResult.exception m) = false := by
  rfl

/-- Claim C7: whenever the transport mode is `Unavailable`, the bridge
invoke dispatcher returns `Failure "no transport available"` and
issues no HTTP request. -/
theorem bridgeInvoke_unavailable (e : Env)
    (native : String → Option Json → InvokeOutcome) (fr : FetchResult)
    (cmd : String) (args : Option Json)
    (h : transportMode e = TransportMode.unavailable) :
    bridgeInvoke e native fr cmd args =
      ([], InvokeOutcome.failure "no transport available") := by
  simp [bridgeInvoke, h]

/-- Claim C7 witness: in the environment `envNone` (no `window`), a
concrete invoke returns the failure `no transport available` with an
empty request list. -/
theorem bridgeInvoke_unavailable_witness :
    bridgeInvoke envNone (fun _ _ => InvokeOutcome.success none)
      (FetchResult.exception "refused") "get_server_status" none =
      ([], InvokeOutcome.failure "no transport available") :=
  bridgeInvoke_unavailable envNone (fun _ _ => InvokeOutcome.success none)
    (FetchResult.exception "refused") "get_server_status" none (by decide)

/-- Claim C8: every `invokeViaHttp cmd args` call issues exactly one
request: a POST to `http://127.0.0.1:3030/invoke` with a
`Content-Type: application/json` header and a JSON body with a `cmd`
string field and, when present, an `args` field. -/
theorem invokeViaHttpRun_request (cmd : String) (args : Option Json)
    (fr : FetchResult) :
    (invokeViaHttpRun cmd args fr).1 =
      [{ url := "http://127.0.0.1:3030/invoke"
         method := "POST"
         headers := [("Content-Type", "application/json")]
         body := Json.obj (("cmd", Json.str cmd) ::
           (match args with
            | none => []
            | some a => [("args", a)])) }] := by
  cases args <;> rfl

/-- Claim C9: every `getBridgeStatus` result satisfies: `connected`
implies `available`; `mode` is `tauri` exactly when the native marker
is present; and `mode` is `mock` exactly when `available` is false. -/
theorem getBridgeStatus_invariants (e : Env) :
    ((getBridgeStatus e).connected = true → (getBridgeStatus e).available = true) ∧
    ((getBridgeStatus e).mode = BridgeMode.tauri ↔ markerPresent e = true) ∧
    ((getBridgeStatus e).mode = BridgeMode.mock ↔
      (getBridgeStatus e).available = false) := by
  cases hm : markerPresent e <;>
  cases hd : isDevBridgeAvailable e <;>
  simp [getBridgeStatus, hm, hd]

/-- Claim C9 witness: the invariants instantiated at the concrete
native environment `envTauri`. -/
theorem getBridgeStatus_invariants_witness :
    ((getBridgeStatus envTauri).connected = true →
      (getBridgeStatus envTauri).available = true) ∧
    ((getBridgeStatus envTauri).mode = BridgeMode.tauri ↔
      markerPresent envTauri = true) ∧
    ((getBridgeStatus envTauri).mode = BridgeMode.mock ↔
      (getBridgeStatus envTauri).available = false) :=
  getBridgeStatus_invariants envTauri

/-- Claim C10: on a 2xx response whose parsed body has no `result`
field and whose `error` field is absent or the empty string,
`invokeViaHttp` resolves successfully with an absent (undefined)
result value rather than reporting a failure. -/
theorem invoke_empty_body_success (r : HttpResponse) (data : InvokeResponse)
    (hok : r.ok = true) (hb : r.jsonBody = Except.ok data)
    (herr : data.error = none ∨ data.error = some "")
    (hres : data.result = none) :
    invokeViaHttp (FetchResult.response r) = Except.ok none := by
  rcases herr with h | h <;> simp [invokeViaHttp, hok, hb, h, hres]

/-- Claim C10 witness: the concrete 200 response `rOkEmpty`, whose body
has neither field, makes `invokeViaHttp` resolve with no result. -/
theorem invoke_empty_body_success_witness :
    invokeViaHttp (FetchResult.response rOkEmpty) = Except.ok none :=
  invoke_empty_body_success rOkEmpty { result := none, error := none }
    (by decide) (by rfl) (Or.inl rfl) rfl

end DevBridge
